import Mathlib

/-!
Verification of the Portfolio backend contact service (server.js).

The file embeds the second source variant of server.js (the variant with
MongoDB persistence) as executable Lean definitions: the email regular
expression, the validation middleware, the POST /api/contact handler, the
rate limiters, the admin list / update-status handlers, and, for the first
source variant, the registration order of its route stack.  External
collaborators (the storage layer and the mail transport) are modelled as
explicit outcome parameters, following the specification, which treats them
as opaque services.
-/

/-! ### Regular expressions (Brzozowski-derivative semantics)

The source validates emails with the literal regular expression
`^\w+([.-]?\w+)*@\w+([.-]?\w+)*(\.\w{2,3})+$`.  We embed regular
expressions as a small syntax with character classes and decide membership
with simplifying derivatives. -/

inductive Regex where
  | emptyset : Regex
  | epsilon : Regex
  | cls : (Char → Bool) → Regex
  | cat : Regex → Regex → Regex
  | alt : Regex → Regex → Regex
  | star : Regex → Regex

def Regex.nullable : Regex → Bool
  | .emptyset => false
  | .epsilon => true
  | .cls _ => false
  | .cat r s => r.nullable && s.nullable
  | .alt r s => r.nullable || s.nullable
  | .star _ => true

/-- Smart alternation: drops the empty language. -/
def Regex.mkAlt : Regex → Regex → Regex
  | .emptyset, s => s
  | r, .emptyset => r
  | r, s => .alt r s

/-- Smart concatenation: propagates the empty language, drops epsilon. -/
def Regex.mkCat : Regex → Regex → Regex
  | .emptyset, _ => .emptyset
  | _, .emptyset => .emptyset
  | .epsilon, s => s
  | r, .epsilon => r
  | r, s => .cat r s

def Regex.derivC : Regex → Char → Regex
  | .emptyset, _ => .emptyset
  | .epsilon, _ => .emptyset
  | .cls p, c => if p c then .epsilon else .emptyset
  | .cat r s, c =>
      if r.nullable then Regex.mkAlt (Regex.mkCat (r.derivC c) s) (s.derivC c)
      else Regex.mkCat (r.derivC c) s
  | .alt r s, c => Regex.mkAlt (r.derivC c) (s.derivC c)
  | .star r, c => Regex.mkCat (r.derivC c) (.star r)

/-- Whole-string acceptance (the regex is anchored with `^...$`). -/
def Regex.accepts (r : Regex) (s : List Char) : Bool :=
  (s.foldl Regex.derivC r).nullable

/-- `r+` -/
def Regex.plus (r : Regex) : Regex := .cat r (.star r)

/-- `r?` -/
def Regex.opt (r : Regex) : Regex := .alt r .epsilon

/-- `r{2,3}` -/
def Regex.rep2or3 (r : Regex) : Regex := .cat r (.cat r (Regex.opt r))

/-- JavaScript `\w`: ASCII letters, digits, underscore. -/
def isWordChar (c : Char) : Bool := c.isAlphanum || c == '_'

/-- JavaScript `[.-]`. -/
def isDotOrHyphen (c : Char) : Bool := c == '.' || c == '-'

/-- `\w+` -/
def wordRun : Regex := Regex.plus (.cls isWordChar)

/-- `([.-]?\w+)*` -/
def sepWordRuns : Regex := Regex.star (.cat (Regex.opt (.cls isDotOrHyphen)) wordRun)

/-- `\w+([.-]?\w+)*` -/
def nameToken : Regex := Regex.cat wordRun sepWordRuns

/-- `^\w+([.-]?\w+)*@\w+([.-]?\w+)*(\.\w{2,3})+$`, exactly as in the source. -/
def emailRegex : Regex :=
  Regex.cat nameToken
    (Regex.cat (.cls (fun c => c == '@'))
      (Regex.cat nameToken
        (Regex.plus (Regex.cat (.cls (fun c => c == '.')) (Regex.rep2or3 (.cls isWordChar))))))

def emailRegexTest (s : String) : Bool := emailRegex.accepts s.data

/-- Modelled from the spec words for the email pattern: local-part and
domain of word characters with optional dot/hyphen separators, followed by
at least one dot-separated final domain segment of 2 to 3 LETTERS.  This
differs from the source regex only in the final segments, where the source
uses `\w`. -/
def specLetterEmailPattern : Regex :=
  Regex.cat nameToken
    (Regex.cat (.cls (fun c => c == '@'))
      (Regex.cat nameToken
        (Regex.plus (Regex.cat (.cls (fun c => c == '.')) (Regex.rep2or3 (.cls Char.isAlpha))))))

def specLetterEmailTest (s : String) : Bool := specLetterEmailPattern.accepts s.data

/-! ### Responses and the validation middleware -/

/-- The `data:{id, timestamp}` object of a successful submission response. -/
structure SubmitData where
  id : Nat
  timestamp : Nat
deriving DecidableEq

/-- The JSON envelope `{success, message?, data?, errors?}` plus the HTTP
status code. -/
structure Response where
  status : Nat
  success : Bool
  message : Option String
  data : Option SubmitData
  errors : Option (List String)
deriving DecidableEq

def reject400 (msg : String) : Response := ⟨400, false, some msg, none, none⟩

def serverError500 : Response :=
  ⟨500, false, some "Internal server error. Please try again later.", none, none⟩

/-- The request body fields, each possibly absent. -/
structure Payload where
  name : Option String
  email : Option String
  message : Option String
deriving DecidableEq

/-- JavaScript truthiness of an optional string field: `!x` holds for an
absent field and for the empty string. -/
def present : Option String → Bool
  | none => false
  | some s => !s.isEmpty

inductive Validation where
  | ok : String → String → String → Validation
  | reject : Response → Validation
deriving DecidableEq

/-- `validateContactInput` middleware of the second source variant. -/
def validateContactInput (p : Payload) : Validation :=
  if !(present p.name) || !(present p.email) || !(present p.message) then
    .reject (reject400 "All fields are required")
  else
    match p.name, p.email, p.message with
    | some name, some email, some message =>
      if name.length > 100 then
        .reject (reject400 "Name cannot exceed 100 characters")
      else if message.length > 1000 then
        .reject (reject400 "Message cannot exceed 1000 characters")
      else if !(emailRegexTest email) then
        .reject (reject400 "Please provide a valid email address")
      else .ok name email message
    | _, _, _ => .reject (reject400 "All fields are required")

/-! ### Contact records and the submission handler -/

inductive ContactStatus where
  | unread
  | read
  | replied
deriving DecidableEq

/-- A persisted contact record (the Mongoose `Contact` model). -/
structure Contact where
  id : Nat
  name : String
  email : String
  message : String
  ipAddress : String
  userAgent : String
  createdAt : Nat
  status : ContactStatus
deriving DecidableEq

/-- `new Contact({name, email, message, ipAddress, userAgent})`: the schema
trims name/message/email, lowercases email, and defaults `createdAt` to the
current time and `status` to `unread`. -/
def mkContact (nid now : Nat) (name email message ip ua : String) : Contact :=
  ⟨nid, name.trim, email.trim.toLower, message.trim, ip, ua, now, ContactStatus.unread⟩

/-- Outcome of `contact.save()` at the opaque storage boundary. -/
inductive SaveOutcome where
  | ok
  | validationError : List String → SaveOutcome
  | storageError
deriving DecidableEq

/-- Outcomes of the two `transporter.sendMail` calls at the opaque mail
transport boundary. -/
structure Outcomes where
  saveO : SaveOutcome
  ownerOk : Bool
  userOk : Bool
deriving DecidableEq

/-- Side-effecting calls attempted by the handler, in order. -/
inductive Step where
  | save
  | sendOwner
  | sendUser
deriving DecidableEq

structure HandlerResult where
  store : List Contact
  nextId : Nat
  response : Response
  trace : List Step
deriving DecidableEq

/-- The POST /api/contact handler of the second source variant: validate,
construct the record, `await contact.save()`, then the owner mail and the
submitter mail in sequence; the catch block maps a storage
`ValidationError` to 400 with the flattened error messages and every other
failure to 500. -/
def postContact (p : Payload) (ip ua : String) (now : Nat) (st : List Contact)
    (nid : Nat) (o : Outcomes) : HandlerResult :=
  match validateContactInput p with
  | .reject r => ⟨st, nid, r, []⟩
  | .ok name email message =>
    let c := mkContact nid now name email message ip ua
    match o.saveO with
    | .validationError errs =>
        ⟨st, nid + 1, ⟨400, false, some "Validation error", none, some errs⟩, [Step.save]⟩
    | .storageError => ⟨st, nid + 1, serverError500, [Step.save]⟩
    | .ok =>
      let st1 := st ++ [c]
      if !o.ownerOk then ⟨st1, nid + 1, serverError500, [Step.save, Step.sendOwner]⟩
      else if !o.userOk then
        ⟨st1, nid + 1, serverError500, [Step.save, Step.sendOwner, Step.sendUser]⟩
      else
        ⟨st1, nid + 1,
          ⟨201, true, some "Message sent successfully! Thank you for reaching out.",
            some ⟨c.id, c.createdAt⟩, none⟩,
          [Step.save, Step.sendOwner, Step.sendUser]⟩

/-! ### Rate limiting (express-rate-limit fixed windows) and the full
submission route -/

/-- One client address in one limiter: the start of its current window and
the number of hits counted in that window. -/
structure WindowEntry where
  windowStart : Nat
  count : Nat
deriving DecidableEq

/-- One express-rate-limit step for one key: count the hit (starting a new
window when the old one has elapsed) and admit while the count stays within
the ceiling. -/
def rateAdmit (e : Option WindowEntry) (now windowMs maxHits : Nat) :
    Bool × WindowEntry :=
  match e with
  | none => (decide (1 ≤ maxHits), ⟨now, 1⟩)
  | some w =>
    if w.windowStart + windowMs ≤ now then (decide (1 ≤ maxHits), ⟨now, 1⟩)
    else (decide (w.count + 1 ≤ maxHits), ⟨w.windowStart, w.count + 1⟩)

def generalWindowMs : Nat := 15 * 60 * 1000
def generalMaxHits : Nat := 100
def contactWindowMs : Nat := 60 * 60 * 1000
def contactMaxHits : Nat := 5

def general429 : Response :=
  ⟨429, false, some "Too many requests from this IP, please try again later.", none, none⟩

def contact429 : Response :=
  ⟨429, false, some "Too many contact submissions from this IP, please try again later.",
    none, none⟩

/-- Server state: per-address counters of the two limiters, the persisted
records, and the next fresh record id. -/
structure ServerState where
  generalHits : String → Option WindowEntry
  contactHits : String → Option WindowEntry
  store : List Contact
  nextId : Nat

def updateKey (f : String → Option WindowEntry) (k : String) (v : WindowEntry) :
    String → Option WindowEntry :=
  fun k2 => if k2 = k then some v else f k2

/-- The whole POST /api/contact route of the second source variant in
middleware order: the general `/api/` limiter, then `contactLimiter`, then
`validateContactInput`, then the handler. -/
def submitContact (s : ServerState) (addr ua : String) (now : Nat) (p : Payload)
    (o : Outcomes) : ServerState × Response × List Step :=
  let g := rateAdmit (s.generalHits addr) now generalWindowMs generalMaxHits
  let s1 : ServerState := ⟨updateKey s.generalHits addr g.2, s.contactHits, s.store, s.nextId⟩
  if !g.1 then (s1, general429, [])
  else
    let cl := rateAdmit (s1.contactHits addr) now contactWindowMs contactMaxHits
    let s2 : ServerState := ⟨s1.generalHits, updateKey s1.contactHits addr cl.2, s1.store, s1.nextId⟩
    if !cl.1 then (s2, contact429, [])
    else
      let r := postContact p addr ua now s2.store s2.nextId o
      (⟨s2.generalHits, s2.contactHits, r.store, r.nextId⟩, r.response, r.trace)

/-- A sequence of submissions from one client address, returning the final
server state. -/
def submitRun (s : ServerState) (addr ua : String) :
    List (Nat × Payload × Outcomes) → ServerState
  | [] => s
  | (t, p, o) :: rest => submitRun (submitContact s addr ua t p o).1 addr ua rest

/-- Invariant on the limiter entries of one address after `k` submissions
whose contact window opened at `t1`: the general limiter has counted at
most `k` hits in its current window, and the contact limiter exactly `k`. -/
def contactInv (addr : String) (t1 k : Nat) (s : ServerState) : Prop :=
  (∃ w c, s.generalHits addr = some ⟨w, c⟩ ∧ c ≤ k) ∧
  s.contactHits addr = some ⟨t1, k⟩

/-! ### Admin list (GET /api/contacts) -/

/-- The projection `select("-ipAddress -userAgent")` applied to a record. -/
structure ContactView where
  id : Nat
  name : String
  email : String
  message : String
  createdAt : Nat
  status : ContactStatus
deriving DecidableEq

def toView (c : Contact) : ContactView :=
  ⟨c.id, c.name, c.email, c.message, c.createdAt, c.status⟩

/-- Insertion into a list kept in `createdAt`-descending order. -/
def insertDesc (c : Contact) : List Contact → List Contact
  | [] => [c]
  | x :: xs => if c.createdAt ≤ x.createdAt then x :: insertDesc c xs else c :: x :: xs

/-- `sort({createdAt: -1})`: order by `createdAt`, most recent first. -/
def sortDesc (l : List Contact) : List Contact := l.foldr insertDesc []

structure ListResult where
  data : List ContactView
  page : Nat
  limit : Nat
  total : Nat
  pages : Nat
deriving DecidableEq

/-- GET /api/contacts handler: query parameters default to page 1, limit 10
and status "all"; the matching records are sorted by `createdAt`
descending, `(page-1)*limit` records are skipped, `limit` records are
taken, ipAddress/userAgent are dropped by the projection, and the page
count is the ceiling of total over limit. -/
def listContacts (st : List Contact) (pageQ limitQ : Option Nat)
    (statusQ : Option ContactStatus) : ListResult :=
  let page := pageQ.getD 1
  let limit := limitQ.getD 10
  let filtered := match statusQ with
    | none => st
    | some f => st.filter (fun c => c.status = f)
  let sorted := sortDesc filtered
  let items := ((sorted.drop ((page - 1) * limit)).take limit).map toView
  let total := filtered.length
  ⟨items, page, limit, total, (total + limit - 1) / limit⟩

/-- Rewrite the two projected-away fields of a record, leaving the rest
alone; used to state that the list output never depends on
ipAddress/userAgent. -/
def maskIpUa (f g : Contact → String) (c : Contact) : Contact :=
  ⟨c.id, c.name, c.email, c.message, f c, g c, c.createdAt, c.status⟩

/-- A store of 25 records whose ids and creation times are 1 to 25. -/
def sampleStore : List Contact :=
  (List.range 25).map fun i =>
    ⟨i + 1, "Name", "user@mail.com", "Msg", "127.0.0.1", "UA", i + 1, ContactStatus.unread⟩

/-! ### Admin update-status (PATCH /api/contacts/:id) -/

/-- Response of the admin mutation endpoints; `data` carries a full record. -/
structure AdminResponse where
  status : Nat
  success : Bool
  message : Option String
  data : Option Contact
deriving DecidableEq

/-- `["unread", "read", "replied"].includes(status)`, and the enum value
when it is included. -/
def statusOfString : String → Option ContactStatus
  | "unread" => some .unread
  | "read" => some .read
  | "replied" => some .replied
  | _ => none

/-- `findByIdAndUpdate(id, {status}, {new: true})`: update the first record
with the given id, returning the updated record when one exists. -/
def updateById (i : Nat) (newStatus : ContactStatus) :
    List Contact → Option Contact × List Contact
  | [] => (none, [])
  | c :: cs =>
    if c.id = i then
      (some ⟨c.id, c.name, c.email, c.message, c.ipAddress, c.userAgent, c.createdAt, newStatus⟩,
        ⟨c.id, c.name, c.email, c.message, c.ipAddress, c.userAgent, c.createdAt, newStatus⟩ :: cs)
    else
      let r := updateById i newStatus cs
      (r.1, c :: r.2)

/-- PATCH /api/contacts/:id handler: reject a status outside
{unread, read, replied} with 400 first, then look the id up, answering 404
when no record matches and 200 with the updated record otherwise. -/
def updateStatus (st : List Contact) (i : Nat) (statusBody : Option String) :
    List Contact × AdminResponse :=
  match statusBody.bind statusOfString with
  | none => (st, ⟨400, false, some "Invalid status value", none⟩)
  | some newStatus =>
    let r := updateById i newStatus st
    match r.1 with
    | none => (st, ⟨404, false, some "Contact not found", none⟩)
    | some c => (r.2, ⟨200, true, none, some c⟩)

/-! ### First source variant: route registration order -/

inductive Method where
  | GET
  | POST
  | PATCH
  | DELETE
deriving DecidableEq

/-- The terminal handlers of the first source variant, one constructor per
registration. -/
inductive V1Handler where
  | contact
  | health
  | fallback
  | testEmail
deriving DecidableEq

/-- Which requests each first-variant handler matches; `app.use("*")`
matches every request. -/
def v1Matches : V1Handler → Method → String → Bool
  | .contact, m, p => m == .POST && p == "/api/contact"
  | .health, m, p => m == .GET && p == "/api/health"
  | .fallback, _, _ => true
  | .testEmail, m, p => m == .GET && p == "/api/test-email"

/-- The first-variant registration order: POST /api/contact, GET
/api/health, the `app.use("*")` fallback, and only then GET
/api/test-email. -/
def v1Stack : List V1Handler := [.contact, .health, .fallback, .testEmail]

/-- Express dispatch: the first registered handler whose matcher accepts
the request. -/
def v1Dispatch (m : Method) (p : String) : Option V1Handler :=
  v1Stack.find? (fun h => v1Matches h m p)

/-- The body sent by the `app.use("*")` fallback. -/
def routeNotFound : Response := ⟨404, false, some "Route not found", none, none⟩

/-! ### Supporting lemmas about the validation middleware -/

/-- Every rejection produced by the validation middleware carries HTTP 400. -/
theorem validate_reject_status (p : Payload) (r : Response)
    (h : validateContactInput p = .reject r) : r.status = 400 := by
  unfold validateContactInput at h
  split at h
  · injection h with h2; subst h2; rfl
  · split at h
    · split at h
      · injection h with h2; subst h2; rfl
      · split at h
        · injection h with h2; subst h2; rfl
        · split at h
          · injection h with h2; subst h2; rfl
          · exact absurd h (by simp)
    · injection h with h2; subst h2; rfl

/-- When a required field is absent or empty, validation rejects with the
missing-fields message. -/
theorem validate_missing (p : Payload)
    (h : present p.name = false ∨ present p.email = false ∨ present p.message = false) :
    validateContactInput p = .reject (reject400 "All fields are required") := by
  unfold validateContactInput
  rcases h with h | h | h <;> simp [h]

/-- What acceptance by the validation middleware implies about the payload. -/
theorem validate_ok_facts (p : Payload) (n e m : String)
    (h : validateContactInput p = .ok n e m) :
    p.name = some n ∧ p.email = some e ∧ p.message = some m ∧
    n.length ≤ 100 ∧ m.length ≤ 1000 ∧ emailRegexTest e = true := by
  unfold validateContactInput at h
  split at h
  · exact absurd h (by simp)
  · split at h
    · split at h
      · exact absurd h (by simp)
      · split at h
        · exact absurd h (by simp)
        · split at h
          · exact absurd h (by simp)
          · injection h with h1 h2 h3
            subst h1; subst h2; subst h3
            simp_all
    · exact absurd h (by simp)

/-- A rejected payload short-circuits the handler: response as rejected,
store untouched, no side-effecting call attempted. -/
theorem postContact_of_reject (p : Payload) (ip ua : String) (now : Nat)
    (st : List Contact) (nid : Nat) (o : Outcomes) (r : Response)
    (h : validateContactInput p = .reject r) :
    postContact p ip ua now st nid o = ⟨st, nid, r, []⟩ := by
  unfold postContact
  rw [h]

/-- C5: for every payload in which name, email, or message is absent or
empty, the submission endpoint returns status 400 and no contact record is
created (the store is unchanged). -/
theorem missing_field_returns_400_and_creates_nothing (p : Payload) (ip ua : String)
    (now : Nat) (st : List Contact) (nid : Nat) (o : Outcomes)
    (h : present p.name = false ∨ present p.email = false ∨ present p.message = false) :
    (postContact p ip ua now st nid o).response.status = 400 ∧
    (postContact p ip ua now st nid o).store = st ∧
    (postContact p ip ua now st nid o).trace = [] := by
  rw [postContact_of_reject p ip ua now st nid o _ (validate_missing p h)]
  exact ⟨rfl, rfl, rfl⟩

/-- Witness for C5: the payload with an empty name is rejected. -/
theorem missing_field_returns_400_witness :
    (postContact ⟨some "", some "ann@example.com", some "Hi"⟩ "1.2.3.4" "UA" 0 [] 0
      ⟨SaveOutcome.ok, true, true⟩).response.status = 400 ∧
    (postContact ⟨some "", some "ann@example.com", some "Hi"⟩ "1.2.3.4" "UA" 0 [] 0
      ⟨SaveOutcome.ok, true, true⟩).store = [] ∧
    (postContact ⟨some "", some "ann@example.com", some "Hi"⟩ "1.2.3.4" "UA" 0 [] 0
      ⟨SaveOutcome.ok, true, true⟩).trace = [] :=
  missing_field_returns_400_and_creates_nothing _ "1.2.3.4" "UA" 0 [] 0 _
    (Or.inl (by decide))

/-- C6: for every payload whose name exceeds 100 characters or whose
message exceeds 1000 characters, the submission endpoint returns status
400 (each bound enforced independently of the other fields) and the store
is unchanged. -/
theorem oversized_field_returns_400 (p : Payload) (ip ua : String)
    (now : Nat) (st : List Contact) (nid : Nat) (o : Outcomes)
    (h : (∃ s, p.name = some s ∧ 100 < s.length) ∨
         (∃ s, p.message = some s ∧ 1000 < s.length)) :
    (postContact p ip ua now st nid o).response.status = 400 ∧
    (postContact p ip ua now st nid o).store = st ∧
    (postContact p ip ua now st nid o).trace = [] := by
  cases hv : validateContactInput p with
  | ok n e m =>
    exfalso
    obtain ⟨hn, he, hm, hlen, hmlen, _⟩ := validate_ok_facts p n e m hv
    rcases h with ⟨s, hs, hl⟩ | ⟨s, hs, hl⟩
    · rw [hn] at hs; cases hs; omega
    · rw [hm] at hs; cases hs; omega
  | reject r =>
    rw [postContact_of_reject p ip ua now st nid o r hv]
    exact ⟨validate_reject_status p r hv, rfl, rfl⟩

/-- Witness for C6: a 101-character name is rejected. -/
theorem oversized_field_returns_400_witness :
    (postContact ⟨some (String.mk (List.replicate 101 'x')), some "ann@example.com", some "Hi"⟩
      "1.2.3.4" "UA" 0 [] 0 ⟨SaveOutcome.ok, true, true⟩).response.status = 400 ∧
    (postContact ⟨some (String.mk (List.replicate 101 'x')), some "ann@example.com", some "Hi"⟩
      "1.2.3.4" "UA" 0 [] 0 ⟨SaveOutcome.ok, true, true⟩).store = [] ∧
    (postContact ⟨some (String.mk (List.replicate 101 'x')), some "ann@example.com", some "Hi"⟩
      "1.2.3.4" "UA" 0 [] 0 ⟨SaveOutcome.ok, true, true⟩).trace = [] :=
  oversized_field_returns_400 _ "1.2.3.4" "UA" 0 [] 0 _
    (Or.inl ⟨String.mk (List.replicate 101 'x'), rfl, by decide⟩)

/-- C1: a payload accepted by the input validator leads, once the storage
layer accepts the save, to exactly one record being appended to the store
with status unread, and the side-effect trace starts with the save,
followed only by the notification sends in owner-then-submitter order. -/
theorem valid_submission_persists_then_notifies
    (p : Payload) (n e m ip ua : String) (now : Nat) (st : List Contact) (nid : Nat)
    (o : Outcomes) (hv : validateContactInput p = .ok n e m) (hs : o.saveO = .ok) :
    (postContact p ip ua now st nid o).store = st ++ [mkContact nid now n e m ip ua] ∧
    (mkContact nid now n e m ip ua).status = ContactStatus.unread ∧
    (postContact p ip ua now st nid o).trace =
      Step.save :: Step.sendOwner :: (if o.ownerOk then [Step.sendUser] else []) := by
  unfold postContact
  rw [hv, hs]
  cases ho : o.ownerOk <;> cases hu : o.userOk <;> simp [ho, hu, mkContact]

/-- Witness for C1: a concrete valid submission with both sends succeeding. -/
theorem valid_submission_persists_witness :
    (postContact ⟨some "Ann", some "ann@example.com", some "Hi"⟩ "1.2.3.4" "UA" 5 [] 7
      ⟨SaveOutcome.ok, true, true⟩).store =
      [] ++ [mkContact 7 5 "Ann" "ann@example.com" "Hi" "1.2.3.4" "UA"] ∧
    (mkContact 7 5 "Ann" "ann@example.com" "Hi" "1.2.3.4" "UA").status = ContactStatus.unread ∧
    (postContact ⟨some "Ann", some "ann@example.com", some "Hi"⟩ "1.2.3.4" "UA" 5 [] 7
      ⟨SaveOutcome.ok, true, true⟩).trace =
      Step.save :: Step.sendOwner ::
        (if (⟨SaveOutcome.ok, true, true⟩ : Outcomes).ownerOk then [Step.sendUser] else []) :=
  valid_submission_persists_then_notifies _ "Ann" "ann@example.com" "Hi" "1.2.3.4" "UA" 5 [] 7 _
    (by decide) rfl

/-- C2: when a notification send fails after the record was persisted, the
record stays in the store, the endpoint answers 500, and neither send is
attempted more than once (no retry). -/
theorem notification_failure_keeps_record
    (p : Payload) (n e m ip ua : String) (now : Nat) (st : List Contact) (nid : Nat)
    (o : Outcomes) (hv : validateContactInput p = .ok n e m) (hs : o.saveO = .ok)
    (hf : o.ownerOk = false ∨ o.userOk = false) :
    (postContact p ip ua now st nid o).store = st ++ [mkContact nid now n e m ip ua] ∧
    (postContact p ip ua now st nid o).response.status = 500 ∧
    (postContact p ip ua now st nid o).trace.count Step.sendOwner ≤ 1 ∧
    (postContact p ip ua now st nid o).trace.count Step.sendUser ≤ 1 := by
  unfold postContact
  rw [hv, hs]
  rcases hf with hf | hf <;> cases ho : o.ownerOk <;> cases hu : o.userOk <;>
    simp_all [serverError500]

/-- Witness for C2: submitter send fails, record persisted, answer 500. -/
theorem notification_failure_keeps_record_witness :
    (postContact ⟨some "Ann", some "ann@example.com", some "Hi"⟩ "1.2.3.4" "UA" 5 [] 7
      ⟨SaveOutcome.ok, true, false⟩).store =
      [] ++ [mkContact 7 5 "Ann" "ann@example.com" "Hi" "1.2.3.4" "UA"] ∧
    (postContact ⟨some "Ann", some "ann@example.com", some "Hi"⟩ "1.2.3.4" "UA" 5 [] 7
      ⟨SaveOutcome.ok, true, false⟩).response.status = 500 ∧
    (postContact ⟨some "Ann", some "ann@example.com", some "Hi"⟩ "1.2.3.4" "UA" 5 [] 7
      ⟨SaveOutcome.ok, true, false⟩).trace.count Step.sendOwner ≤ 1 ∧
    (postContact ⟨some "Ann", some "ann@example.com", some "Hi"⟩ "1.2.3.4" "UA" 5 [] 7
      ⟨SaveOutcome.ok, true, false⟩).trace.count Step.sendUser ≤ 1 :=
  notification_failure_keeps_record _ "Ann" "ann@example.com" "Hi" "1.2.3.4" "UA" 5 [] 7 _
    (by decide) rfl (Or.inr rfl)

/-- C3: a submission that passes validation, persistence and both sends is
answered 201 with success true and data carrying the persisted record id
and creation timestamp. -/
theorem successful_submission_responds_201
    (p : Payload) (n e m ip ua : String) (now : Nat) (st : List Contact) (nid : Nat)
    (o : Outcomes) (hv : validateContactInput p = .ok n e m) (hs : o.saveO = .ok)
    (ho : o.ownerOk = true) (hu : o.userOk = true) :
    (postContact p ip ua now st nid o).response =
      ⟨201, true, some "Message sent successfully! Thank you for reaching out.",
        some ⟨(mkContact nid now n e m ip ua).id, (mkContact nid now n e m ip ua).createdAt⟩,
        none⟩ ∧
    (postContact p ip ua now st nid o).store = st ++ [mkContact nid now n e m ip ua] ∧
    (mkContact nid now n e m ip ua).id = nid ∧
    (mkContact nid now n e m ip ua).createdAt = now := by
  unfold postContact
  rw [hv, hs]
  simp [ho, hu, mkContact]

/-- Witness for C3: a concrete fully successful submission. -/
theorem successful_submission_responds_201_witness :
    (postContact ⟨some "Ann", some "ann@example.com", some "Hi"⟩ "1.2.3.4" "UA" 5 [] 7
      ⟨SaveOutcome.ok, true, true⟩).response =
      ⟨201, true, some "Message sent successfully! Thank you for reaching out.",
        some ⟨(mkContact 7 5 "Ann" "ann@example.com" "Hi" "1.2.3.4" "UA").id,
          (mkContact 7 5 "Ann" "ann@example.com" "Hi" "1.2.3.4" "UA").createdAt⟩, none⟩ ∧
    (postContact ⟨some "Ann", some "ann@example.com", some "Hi"⟩ "1.2.3.4" "UA" 5 [] 7
      ⟨SaveOutcome.ok, true, true⟩).store =
      [] ++ [mkContact 7 5 "Ann" "ann@example.com" "Hi" "1.2.3.4" "UA"] ∧
    (mkContact 7 5 "Ann" "ann@example.com" "Hi" "1.2.3.4" "UA").id = 7 ∧
    (mkContact 7 5 "Ann" "ann@example.com" "Hi" "1.2.3.4" "UA").createdAt = 5 :=
  successful_submission_responds_201 _ "Ann" "ann@example.com" "Hi" "1.2.3.4" "UA" 5 [] 7 _
    (by decide) rfl rfl rfl

/-- C7 counterexample: the address "a@b.12" is not of the claimed shape
(its final domain segment "12" is not 2-3 letters), yet the source regular
expression accepts it and a submission carrying it passes validation and
succeeds with 201 instead of returning 400. -/
theorem email_letters_pattern_counterexample :
    specLetterEmailTest "a@b.12" = false ∧
    emailRegexTest "a@b.12" = true ∧
    (postContact ⟨some "Ann", some "a@b.12", some "Hi"⟩ "1.2.3.4" "UA" 0 [] 0
      ⟨SaveOutcome.ok, true, true⟩).response.status = 201 := by
  refine ⟨by decide, by decide, by decide⟩

/-- The source regular expression rejects the empty string. -/
theorem emailRegexTest_empty : emailRegexTest "" = false := by decide

/-- C7 (amended): the validator accepts an email exactly when it matches
the source pattern, whose final dot-separated domain segments consist of
2-3 word characters (letters, digits, or underscore); for a payload whose
other fields pass their checks, an email failing that pattern makes the
submission return 400 with the store unchanged, and an email matching it
makes validation succeed. -/
theorem email_pattern_decides_validation
    (p : Payload) (n e m ip ua : String) (now : Nat) (st : List Contact) (nid : Nat)
    (o : Outcomes)
    (hn : p.name = some n) (he : p.email = some e) (hm : p.message = some m)
    (hn1 : n ≠ "") (hm1 : m ≠ "") (hn2 : n.length ≤ 100) (hm2 : m.length ≤ 1000) :
    (emailRegexTest e = false →
      (postContact p ip ua now st nid o).response.status = 400 ∧
      (postContact p ip ua now st nid o).store = st) ∧
    (emailRegexTest e = true → validateContactInput p = .ok n e m) := by
  constructor
  · intro hre
    cases hv : validateContactInput p with
    | ok n2 e2 m2 =>
      exfalso
      obtain ⟨-, he2, -, -, -, hre2⟩ := validate_ok_facts p n2 e2 m2 hv
      rw [he] at he2
      cases he2
      rw [hre] at hre2
      exact Bool.false_ne_true hre2
    | reject r =>
      rw [postContact_of_reject p ip ua now st nid o r hv]
      exact ⟨validate_reject_status p r hv, rfl⟩
  · intro hre
    have he1 : e ≠ "" := by
      intro hcon
      rw [hcon, emailRegexTest_empty] at hre
      exact Bool.false_ne_true hre
    have hn2a : ¬ 100 < n.length := by omega
    have hm2a : ¬ 1000 < m.length := by omega
    unfold validateContactInput
    rw [hn, he, hm]
    simp [present, String.isEmpty_iff, hn1, hm1, he1, hre, hn2a, hm2a]

/-- Witness for C7 (amended): a malformed email is answered 400, a
well-formed one passes validation. -/
theorem email_pattern_decides_validation_witness :
    ((emailRegexTest "not-an-email" = false →
      (postContact ⟨some "Ann", some "not-an-email", some "Hi"⟩ "1.2.3.4" "UA" 0 [] 0
        ⟨SaveOutcome.ok, true, true⟩).response.status = 400 ∧
      (postContact ⟨some "Ann", some "not-an-email", some "Hi"⟩ "1.2.3.4" "UA" 0 [] 0
        ⟨SaveOutcome.ok, true, true⟩).store = []) ∧
    (emailRegexTest "not-an-email" = true →
      validateContactInput ⟨some "Ann", some "not-an-email", some "Hi"⟩ =
        .ok "Ann" "not-an-email" "Hi")) ∧
    emailRegexTest "not-an-email" = false ∧
    ((emailRegexTest "ann@example.com" = false →
      (postContact ⟨some "Ann", some "ann@example.com", some "Hi"⟩ "1.2.3.4" "UA" 0 [] 0
        ⟨SaveOutcome.ok, true, true⟩).response.status = 400 ∧
      (postContact ⟨some "Ann", some "ann@example.com", some "Hi"⟩ "1.2.3.4" "UA" 0 [] 0
        ⟨SaveOutcome.ok, true, true⟩).store = []) ∧
    (emailRegexTest "ann@example.com" = true →
      validateContactInput ⟨some "Ann", some "ann@example.com", some "Hi"⟩ =
        .ok "Ann" "ann@example.com" "Hi")) ∧
    emailRegexTest "ann@example.com" = true :=
  ⟨email_pattern_decides_validation _ "Ann" "not-an-email" "Hi" "1.2.3.4" "UA" 0 [] 0
      ⟨SaveOutcome.ok, true, true⟩ rfl rfl rfl (by decide) (by decide) (by decide) (by decide),
    by decide,
    email_pattern_decides_validation _ "Ann" "ann@example.com" "Hi" "1.2.3.4" "UA" 0 [] 0
      ⟨SaveOutcome.ok, true, true⟩ rfl rfl rfl (by decide) (by decide) (by decide) (by decide),
    by decide⟩

/-! ### Supporting lemmas about the admin update -/

/-- `findByIdAndUpdate` finds nothing when no record carries the id. -/
theorem updateById_not_found (i : Nat) (s : ContactStatus) (st : List Contact)
    (h : ∀ c ∈ st, c.id ≠ i) : updateById i s st = (none, st) := by
  induction st with
  | nil => rfl
  | cons c cs ih =>
    unfold updateById
    rw [if_neg (h c (List.mem_cons_self c cs))]
    simp [ih (fun x hx => h x (List.mem_cons_of_mem c hx))]

/-- `findByIdAndUpdate` rewrites exactly the status of the first record
carrying the id and returns the updated record. -/
theorem updateById_found (i : Nat) (s : ContactStatus) (pre post : List Contact)
    (c : Contact) (hpre : ∀ x ∈ pre, x.id ≠ i) (hc : c.id = i) :
    updateById i s (pre ++ c :: post) =
      (some ⟨c.id, c.name, c.email, c.message, c.ipAddress, c.userAgent, c.createdAt, s⟩,
       pre ++ ⟨c.id, c.name, c.email, c.message, c.ipAddress, c.userAgent, c.createdAt, s⟩
         :: post) := by
  induction pre with
  | nil => simp [updateById, hc]
  | cons x xs ih =>
    rw [List.cons_append]
    unfold updateById
    rw [if_neg (hpre x (List.mem_cons_self x xs))]
    simp [ih (fun y hy => hpre y (List.mem_cons_of_mem x hy))]

/-- C9 counterexample: with an empty store (so no record matches id 1) and
the status value "bogus", the update answers 400, not the 404 the claim
requires for an unmatched id. -/
theorem update_status_counterexample :
    (updateStatus [] 1 (some "bogus")).2.status = 400 ∧
    ((updateStatus [] 1 (some "bogus")).2.status == 404) = false ∧
    (updateStatus [] 1 (some "bogus")).1 = [] := by
  refine ⟨rfl, rfl, rfl⟩

/-- C9 (amended): a status outside {unread, read, replied} is rejected
with 400 before the id is looked up, leaving every record unchanged; with
an allowed status, an unmatched id answers 404 and mutates nothing, and a
matched id gets exactly its status field replaced, the updated record
being returned with 200. -/
theorem update_status_checks_value_then_id :
    (∀ st i sb, sb.bind statusOfString = none →
      (updateStatus st i sb).1 = st ∧ (updateStatus st i sb).2.status = 400) ∧
    (∀ st i s stt, statusOfString s = some stt → (∀ c ∈ st, c.id ≠ i) →
      (updateStatus st i (some s)).1 = st ∧ (updateStatus st i (some s)).2.status = 404) ∧
    (∀ pre post c i s stt, statusOfString s = some stt → (∀ x ∈ pre, x.id ≠ i) →
      c.id = i →
      updateStatus (pre ++ c :: post) i (some s) =
        (pre ++ ⟨c.id, c.name, c.email, c.message, c.ipAddress, c.userAgent, c.createdAt, stt⟩
           :: post,
         ⟨200, true, none,
           some ⟨c.id, c.name, c.email, c.message, c.ipAddress, c.userAgent, c.createdAt,
             stt⟩⟩)) := by
  refine ⟨?_, ?_, ?_⟩
  · intro st i sb h
    unfold updateStatus
    rw [h]
    exact ⟨rfl, rfl⟩
  · intro st i s stt h hall
    unfold updateStatus
    simp only [Option.some_bind, h]
    rw [updateById_not_found i stt st hall]
    exact ⟨rfl, rfl⟩
  · intro pre post c i s stt h hpre hc
    unfold updateStatus
    simp only [Option.some_bind, h]
    rw [updateById_found i stt pre post c hpre hc]

/-- Witness for C9 (amended): the three branches at concrete inputs. -/
theorem update_status_checks_value_then_id_witness :
    ((updateStatus [⟨1, "A", "a@b.co", "m", "ip", "ua", 0, ContactStatus.unread⟩] 1
        (some "bogus")).1 = [⟨1, "A", "a@b.co", "m", "ip", "ua", 0, ContactStatus.unread⟩] ∧
      (updateStatus [⟨1, "A", "a@b.co", "m", "ip", "ua", 0, ContactStatus.unread⟩] 1
        (some "bogus")).2.status = 400) ∧
    ((updateStatus [⟨1, "A", "a@b.co", "m", "ip", "ua", 0, ContactStatus.unread⟩] 2
        (some "read")).1 = [⟨1, "A", "a@b.co", "m", "ip", "ua", 0, ContactStatus.unread⟩] ∧
      (updateStatus [⟨1, "A", "a@b.co", "m", "ip", "ua", 0, ContactStatus.unread⟩] 2
        (some "read")).2.status = 404) ∧
    updateStatus ([] ++ ⟨1, "A", "a@b.co", "m", "ip", "ua", 0, ContactStatus.unread⟩ :: []) 1
        (some "read") =
      ([] ++ ⟨1, "A", "a@b.co", "m", "ip", "ua", 0, ContactStatus.read⟩ :: [],
        ⟨200, true, none, some ⟨1, "A", "a@b.co", "m", "ip", "ua", 0, ContactStatus.read⟩⟩) :=
  ⟨update_status_checks_value_then_id.1
      [⟨1, "A", "a@b.co", "m", "ip", "ua", 0, ContactStatus.unread⟩] 1 (some "bogus") rfl,
    update_status_checks_value_then_id.2.1
      [⟨1, "A", "a@b.co", "m", "ip", "ua", 0, ContactStatus.unread⟩] 2 "read"
      ContactStatus.read rfl (by decide),
    update_status_checks_value_then_id.2.2 [] []
      ⟨1, "A", "a@b.co", "m", "ip", "ua", 0, ContactStatus.unread⟩ 1 "read"
      ContactStatus.read rfl (by decide) rfl⟩

/-- C10: in the first source variant the catch-all 404 handler is
registered before GET /api/test-email, so that request is answered by the
fallback with the 404 route-not-found body, and no request at all ever
dispatches to the test-email handler. -/
theorem v1_fallback_shadows_test_email :
    v1Dispatch Method.GET "/api/test-email" = some V1Handler.fallback ∧
    routeNotFound = ⟨404, false, some "Route not found", none, none⟩ ∧
    ∀ m p, v1Dispatch m p = some V1Handler.contact ∨
      v1Dispatch m p = some V1Handler.health ∨
      v1Dispatch m p = some V1Handler.fallback := by
  refine ⟨by decide, rfl, ?_⟩
  intro m p
  unfold v1Dispatch v1Stack
  cases h1 : (m == Method.POST && p == "/api/contact") <;>
    cases h2 : (m == Method.GET && p == "/api/health") <;>
      simp [List.find?, v1Matches, h1, h2]

/-! ### Supporting lemmas about the rate limiters -/

theorem rateAdmit_none (now windowMs maxHits : Nat) (h : 1 ≤ maxHits) :
    rateAdmit none now windowMs maxHits = (true, ⟨now, 1⟩) := by
  unfold rateAdmit
  simp [h]

theorem rateAdmit_reset (w : WindowEntry) (now windowMs maxHits : Nat)
    (hr : w.windowStart + windowMs ≤ now) (h : 1 ≤ maxHits) :
    rateAdmit (some w) now windowMs maxHits = (true, ⟨now, 1⟩) := by
  unfold rateAdmit
  simp [hr, h]

theorem rateAdmit_within_ok (w : WindowEntry) (now windowMs maxHits : Nat)
    (hr : ¬ w.windowStart + windowMs ≤ now) (h : w.count + 1 ≤ maxHits) :
    rateAdmit (some w) now windowMs maxHits = (true, ⟨w.windowStart, w.count + 1⟩) := by
  unfold rateAdmit
  simp [hr, h]

theorem rateAdmit_within_reject (w : WindowEntry) (now windowMs maxHits : Nat)
    (hr : ¬ w.windowStart + windowMs ≤ now) (h : maxHits < w.count + 1) :
    rateAdmit (some w) now windowMs maxHits = (false, ⟨w.windowStart, w.count + 1⟩) := by
  unfold rateAdmit
  simp [hr]
  omega

/-- The first submission of a fresh address opens both windows with one
counted hit. -/
theorem submit_first_inv (s : ServerState) (addr ua : String) (t1 : Nat)
    (p : Payload) (o : Outcomes)
    (hg : s.generalHits addr = none) (hc : s.contactHits addr = none) :
    contactInv addr t1 1 (submitContact s addr ua t1 p o).1 := by
  unfold submitContact
  rw [hg, rateAdmit_none t1 generalWindowMs generalMaxHits (by decide)]
  simp only [updateKey]
  rw [hc, rateAdmit_none t1 contactWindowMs contactMaxHits (by decide)]
  refine ⟨⟨t1, 1, ?_, ?_⟩, ?_⟩ <;> simp [updateKey, postContact]

/-- Submissions 2 to 5 of the window are admitted and advance the
invariant. -/
theorem submit_step_inv (s : ServerState) (addr ua : String) (t t1 k : Nat)
    (p : Payload) (o : Outcomes)
    (hInv : contactInv addr t1 k s) (hk : k < 5)
    (ht : t < t1 + contactWindowMs) :
    contactInv addr t1 (k + 1) (submitContact s addr ua t p o).1 := by
  obtain ⟨⟨w, c, hg, hcle⟩, hcontact⟩ := hInv
  unfold submitContact
  rw [hg]
  by_cases hrs : w + generalWindowMs ≤ t
  · rw [rateAdmit_reset ⟨w, c⟩ t generalWindowMs generalMaxHits hrs (by decide)]
    simp only [updateKey, Bool.not_true, if_neg (by simp : ¬ (false = true))]
    rw [hcontact, rateAdmit_within_ok ⟨t1, k⟩ t contactWindowMs contactMaxHits
      (by simp only [contactWindowMs] at ht ⊢; omega) (by simp [contactMaxHits]; omega)]
    refine ⟨⟨t, 1, ?_, ?_⟩, ?_⟩ <;> simp [updateKey]
  · rw [rateAdmit_within_ok ⟨w, c⟩ t generalWindowMs generalMaxHits hrs
      (by simp [generalMaxHits]; omega)]
    simp only [updateKey, Bool.not_true, if_neg (by simp : ¬ (false = true))]
    rw [hcontact, rateAdmit_within_ok ⟨t1, k⟩ t contactWindowMs contactMaxHits
      (by simp only [contactWindowMs] at ht ⊢; omega) (by simp [contactMaxHits]; omega)]
    refine ⟨⟨w, c + 1, ?_, ?_⟩, ?_⟩ <;> simp [updateKey]
    omega

/-- With five hits already counted in the open contact window, the next
submission from that address is rejected with the contact limiter message,
touching neither the store nor the side effects. -/
theorem submit_sixth_rejected (s : ServerState) (addr ua : String) (t t1 : Nat)
    (p : Payload) (o : Outcomes)
    (hInv : contactInv addr t1 5 s) (ht : t < t1 + contactWindowMs) :
    (submitContact s addr ua t p o).2.1 = contact429 ∧
    (submitContact s addr ua t p o).1.store = s.store ∧
    (submitContact s addr ua t p o).2.2 = [] := by
  obtain ⟨⟨w, c, hg, hcle⟩, hcontact⟩ := hInv
  unfold submitContact
  rw [hg]
  by_cases hrs : w + generalWindowMs ≤ t
  · rw [rateAdmit_reset ⟨w, c⟩ t generalWindowMs generalMaxHits hrs (by decide)]
    simp only [updateKey]
    rw [hcontact, rateAdmit_within_reject ⟨t1, 5⟩ t contactWindowMs contactMaxHits
      (by simp only [contactWindowMs] at ht ⊢; omega) (by simp [contactMaxHits])]
    simp
  · rw [rateAdmit_within_ok ⟨w, c⟩ t generalWindowMs generalMaxHits hrs
      (by simp [generalMaxHits]; omega)]
    simp only [updateKey]
    rw [hcontact, rateAdmit_within_reject ⟨t1, 5⟩ t contactWindowMs contactMaxHits
      (by simp only [contactWindowMs] at ht ⊢; omega) (by simp [contactMaxHits])]
    simp

/-- C4: for an address whose limiter windows are fresh, the sixth contact
submission within 60 minutes of the first is rejected with 429 by the
contact limiter before validation runs: its response is the limiter
rejection, the store is untouched, and no handler side effect is
attempted, for every sixth payload whatever its validity. -/
theorem sixth_submission_within_window_is_429
    (s0 : ServerState) (addr ua : String) (t1 t2 t3 t4 t5 t6 : Nat)
    (p1 p2 p3 p4 p5 p6 : Payload) (o1 o2 o3 o4 o5 o6 : Outcomes)
    (hg : s0.generalHits addr = none) (hc : s0.contactHits addr = none)
    (h2 : t2 < t1 + contactWindowMs) (h3 : t3 < t1 + contactWindowMs)
    (h4 : t4 < t1 + contactWindowMs) (h5 : t5 < t1 + contactWindowMs)
    (h6 : t6 < t1 + contactWindowMs) :
    (submitContact (submitRun s0 addr ua
        [(t1, p1, o1), (t2, p2, o2), (t3, p3, o3), (t4, p4, o4), (t5, p5, o5)])
      addr ua t6 p6 o6).2.1 = contact429 ∧
    contact429.status = 429 ∧
    (submitContact (submitRun s0 addr ua
        [(t1, p1, o1), (t2, p2, o2), (t3, p3, o3), (t4, p4, o4), (t5, p5, o5)])
      addr ua t6 p6 o6).1.store =
      (submitRun s0 addr ua
        [(t1, p1, o1), (t2, p2, o2), (t3, p3, o3), (t4, p4, o4), (t5, p5, o5)]).store ∧
    (submitContact (submitRun s0 addr ua
        [(t1, p1, o1), (t2, p2, o2), (t3, p3, o3), (t4, p4, o4), (t5, p5, o5)])
      addr ua t6 p6 o6).2.2 = [] := by
  have i1 := submit_first_inv s0 addr ua t1 p1 o1 hg hc
  have i2 := submit_step_inv _ addr ua t2 t1 1 p2 o2 i1 (by omega) h2
  have i3 := submit_step_inv _ addr ua t3 t1 2 p3 o3 i2 (by omega) h3
  have i4 := submit_step_inv _ addr ua t4 t1 3 p4 o4 i3 (by omega) h4
  have i5 := submit_step_inv _ addr ua t5 t1 4 p5 o5 i4 (by omega) h5
  have hfin := submit_sixth_rejected _ addr ua t6 t1 p6 o6 i5 h6
  simp only [submitRun] at *
  exact ⟨hfin.1, rfl, hfin.2.1, hfin.2.2⟩

/-- Witness for C4: six identical submissions at time 0 from one address,
starting from the empty server state. -/
theorem sixth_submission_within_window_is_429_witness :
    (submitContact (submitRun ⟨fun _ => none, fun _ => none, [], 0⟩ "1.2.3.4" "UA"
        [(0, ⟨some "Ann", some "ann@example.com", some "Hi"⟩, ⟨SaveOutcome.ok, true, true⟩),
         (0, ⟨some "Ann", some "ann@example.com", some "Hi"⟩, ⟨SaveOutcome.ok, true, true⟩),
         (0, ⟨some "Ann", some "ann@example.com", some "Hi"⟩, ⟨SaveOutcome.ok, true, true⟩),
         (0, ⟨some "Ann", some "ann@example.com", some "Hi"⟩, ⟨SaveOutcome.ok, true, true⟩),
         (0, ⟨some "Ann", some "ann@example.com", some "Hi"⟩, ⟨SaveOutcome.ok, true, true⟩)])
      "1.2.3.4" "UA" 0 ⟨some "Ann", some "ann@example.com", some "Hi"⟩
      ⟨SaveOutcome.ok, true, true⟩).2.1 = contact429 ∧
    contact429.status = 429 ∧
    (submitContact (submitRun ⟨fun _ => none, fun _ => none, [], 0⟩ "1.2.3.4" "UA"
        [(0, ⟨some "Ann", some "ann@example.com", some "Hi"⟩, ⟨SaveOutcome.ok, true, true⟩),
         (0, ⟨some "Ann", some "ann@example.com", some "Hi"⟩, ⟨SaveOutcome.ok, true, true⟩),
         (0, ⟨some "Ann", some "ann@example.com", some "Hi"⟩, ⟨SaveOutcome.ok, true, true⟩),
         (0, ⟨some "Ann", some "ann@example.com", some "Hi"⟩, ⟨SaveOutcome.ok, true, true⟩),
         (0, ⟨some "Ann", some "ann@example.com", some "Hi"⟩, ⟨SaveOutcome.ok, true, true⟩)])
      "1.2.3.4" "UA" 0 ⟨some "Ann", some "ann@example.com", some "Hi"⟩
      ⟨SaveOutcome.ok, true, true⟩).1.store =
      (submitRun ⟨fun _ => none, fun _ => none, [], 0⟩ "1.2.3.4" "UA"
        [(0, ⟨some "Ann", some "ann@example.com", some "Hi"⟩, ⟨SaveOutcome.ok, true, true⟩),
         (0, ⟨some "Ann", some "ann@example.com", some "Hi"⟩, ⟨SaveOutcome.ok, true, true⟩),
         (0, ⟨some "Ann", some "ann@example.com", some "Hi"⟩, ⟨SaveOutcome.ok, true, true⟩),
         (0, ⟨some "Ann", some "ann@example.com", some "Hi"⟩, ⟨SaveOutcome.ok, true, true⟩),
         (0, ⟨some "Ann", some "ann@example.com", some "Hi"⟩, ⟨SaveOutcome.ok, true, true⟩)]).store ∧
    (submitContact (submitRun ⟨fun _ => none, fun _ => none, [], 0⟩ "1.2.3.4" "UA"
        [(0, ⟨some "Ann", some "ann@example.com", some "Hi"⟩, ⟨SaveOutcome.ok, true, true⟩),
         (0, ⟨some "Ann", some "ann@example.com", some "Hi"⟩, ⟨SaveOutcome.ok, true, true⟩),
         (0, ⟨some "Ann", some "ann@example.com", some "Hi"⟩, ⟨SaveOutcome.ok, true, true⟩),
         (0, ⟨some "Ann", some "ann@example.com", some "Hi"⟩, ⟨SaveOutcome.ok, true, true⟩),
         (0, ⟨some "Ann", some "ann@example.com", some "Hi"⟩, ⟨SaveOutcome.ok, true, true⟩)])
      "1.2.3.4" "UA" 0 ⟨some "Ann", some "ann@example.com", some "Hi"⟩
      ⟨SaveOutcome.ok, true, true⟩).2.2 = [] :=
  sixth_submission_within_window_is_429 ⟨fun _ => none, fun _ => none, [], 0⟩ "1.2.3.4" "UA"
    0 0 0 0 0 0 _ _ _ _ _ _ _ _ _ _ _ _ rfl rfl (by decide) (by decide) (by decide)
    (by decide) (by decide)

/-! ### Supporting lemmas about the admin list -/

theorem mem_insertDesc {x c : Contact} {l : List Contact} :
    x ∈ insertDesc c l ↔ x = c ∨ x ∈ l := by
  induction l with
  | nil => simp [insertDesc]
  | cons y ys ih =>
    unfold insertDesc
    by_cases hc : c.createdAt ≤ y.createdAt
    · rw [if_pos hc]
      simp only [List.mem_cons, ih]
      tauto
    · rw [if_neg hc]
      simp only [List.mem_cons]

theorem pairwise_insertDesc (c : Contact) (l : List Contact)
    (h : l.Pairwise (fun a b => b.createdAt ≤ a.createdAt)) :
    (insertDesc c l).Pairwise (fun a b => b.createdAt ≤ a.createdAt) := by
  induction l with
  | nil => simp [insertDesc]
  | cons y ys ih =>
    rw [List.pairwise_cons] at h
    obtain ⟨hy, hys⟩ := h
    unfold insertDesc
    by_cases hc : c.createdAt ≤ y.createdAt
    · rw [if_pos hc, List.pairwise_cons]
      refine ⟨?_, ih hys⟩
      intro z hz
      rcases mem_insertDesc.1 hz with rfl | hz2
      · exact hc
      · exact hy z hz2
    · rw [if_neg hc, List.pairwise_cons]
      refine ⟨?_, List.Pairwise.cons hy hys⟩
      intro z hz
      rcases List.mem_cons.1 hz with rfl | hz2
      · omega
      · have := hy z hz2
        omega

theorem pairwise_sortDesc (l : List Contact) :
    (sortDesc l).Pairwise (fun a b => b.createdAt ≤ a.createdAt) := by
  induction l with
  | nil => simp [sortDesc]
  | cons y ys ih => exact pairwise_insertDesc y _ ih

theorem insertDesc_map_maskIpUa (f g : Contact → String) (c : Contact) (l : List Contact) :
    insertDesc (maskIpUa f g c) (l.map (maskIpUa f g)) = (insertDesc c l).map (maskIpUa f g) := by
  induction l with
  | nil => rfl
  | cons y ys ih =>
    simp only [List.map_cons]
    unfold insertDesc
    by_cases hc : c.createdAt ≤ y.createdAt
    · rw [if_pos hc, if_pos (show (maskIpUa f g c).createdAt ≤ (maskIpUa f g y).createdAt from hc)]
      rw [List.map_cons, ih]
    · rw [if_neg hc, if_neg (show ¬ (maskIpUa f g c).createdAt ≤ (maskIpUa f g y).createdAt from hc)]
      simp [List.map_cons]

theorem sortDesc_map_maskIpUa (f g : Contact → String) (l : List Contact) :
    sortDesc (l.map (maskIpUa f g)) = (sortDesc l).map (maskIpUa f g) := by
  induction l with
  | nil => rfl
  | cons y ys ih =>
    simp only [sortDesc, List.map_cons, List.foldr_cons] at *
    rw [ih, insertDesc_map_maskIpUa]

theorem filter_map_maskIpUa (f g : Contact → String) (fs : ContactStatus) (l : List Contact) :
    (l.map (maskIpUa f g)).filter (fun c => c.status = fs) =
      (l.filter (fun c => c.status = fs)).map (maskIpUa f g) := by
  induction l with
  | nil => rfl
  | cons y ys ih =>
    simp only [List.map_cons, List.filter_cons]
    by_cases hs : y.status = fs
    · simp only [show (maskIpUa f g y).status = y.status from rfl, hs]
      simp [ih]
    · simp only [show (maskIpUa f g y).status = y.status from rfl, hs]
      simp [hs, ih]

theorem ceil_bounds (t l : Nat) (hl : 0 < l) :
    t ≤ ((t + l - 1) / l) * l ∧ ((t + l - 1) / l) * l < t + l := by
  rw [Nat.mul_comm ((t + l - 1) / l) l]
  have hdm := Nat.div_add_mod (t + l - 1) l
  have hmlt := Nat.mod_lt (t + l - 1) hl
  set q := (t + l - 1) / l with hq
  set r := (t + l - 1) % l with hr
  set x := l * q with hx
  omega

/-- C8: the admin list is ordered by createdAt descending, excludes
ipAddress/userAgent from its output (changing them never changes the
result), defaults to page 1 and pageSize 10, computes pages as the ceiling
of total over pageSize, and over 25 records page 2 with pageSize 10 yields
the records with creation times 15 down to 6 and pages = 3. -/
theorem admin_list_paginates_sorted_and_projects :
    (listContacts sampleStore (some 2) (some 10) none).data =
      (List.range 10).map (fun j =>
        ⟨15 - j, "Name", "user@mail.com", "Msg", 15 - j, ContactStatus.unread⟩) ∧
    (listContacts sampleStore (some 2) (some 10) none).pages = 3 ∧
    (listContacts sampleStore (some 2) (some 10) none).total = 25 ∧
    (∀ st fs, listContacts st none none fs = listContacts st (some 1) (some 10) fs) ∧
    (∀ st pq lq fs, ((listContacts st pq lq fs).data).Pairwise
      (fun a b => b.createdAt ≤ a.createdAt)) ∧
    (∀ st pq lq fs f g,
      listContacts (st.map (maskIpUa f g)) pq lq fs = listContacts st pq lq fs) ∧
    (∀ st pq lq fs, 0 < (listContacts st pq lq fs).limit →
      (listContacts st pq lq fs).total ≤
        (listContacts st pq lq fs).pages * (listContacts st pq lq fs).limit ∧
      (listContacts st pq lq fs).pages * (listContacts st pq lq fs).limit <
        (listContacts st pq lq fs).total + (listContacts st pq lq fs).limit) := by
  refine ⟨by decide, by decide, by decide, fun st fs => rfl, ?_, ?_, ?_⟩
  · intro st pq lq fs
    simp only [listContacts]
    apply List.pairwise_map.mpr
    apply List.Pairwise.sublist (List.take_sublist _ _)
    apply List.Pairwise.sublist (List.drop_sublist _ _)
    exact pairwise_sortDesc _
  · intro st pq lq fs f g
    cases fs with
    | none =>
      simp only [listContacts, sortDesc_map_maskIpUa, List.length_map]
      rw [← List.map_drop, ← List.map_take, List.map_map]
      rfl
    | some s =>
      simp only [listContacts, filter_map_maskIpUa, sortDesc_map_maskIpUa, List.length_map]
      rw [← List.map_drop, ← List.map_take, List.map_map]
      rfl
  · intro st pq lq fs hl
    simp only [listContacts] at hl ⊢
    exact ceil_bounds _ _ hl

/-- Witness for C8: the defaults and the ceiling bound at the concrete
25-record store. -/
theorem admin_list_paginates_witness :
    listContacts sampleStore none none none = listContacts sampleStore (some 1) (some 10) none ∧
    ((listContacts sampleStore (some 2) (some 10) none).total ≤
      (listContacts sampleStore (some 2) (some 10) none).pages *
        (listContacts sampleStore (some 2) (some 10) none).limit ∧
      (listContacts sampleStore (some 2) (some 10) none).pages *
        (listContacts sampleStore (some 2) (some 10) none).limit <
      (listContacts sampleStore (some 2) (some 10) none).total +
        (listContacts sampleStore (some 2) (some 10) none).limit) :=
  ⟨admin_list_paginates_sorted_and_projects.2.2.2.1 sampleStore none,
    admin_list_paginates_sorted_and_projects.2.2.2.2.2.2 sampleStore (some 2) (some 10) none
      (by decide)⟩
